import Mathlib

/-!
Shallow embedding of the Lunsara client-side account/session/cart logic
(src/auth.js, src/cart.js and the unnamed cart variant).

The browser's localStorage is modelled as explicit fields of `AuthState`
(one per key the code uses).  `Date.now()` is passed in as an `Int`
parameter `now` wherever the source reads the clock; the random suffix of
a reset token is likewise an explicit parameter.  JS strings are modelled
as Lean `String` (identical for the ASCII data these functions handle),
and the identifiers produced by `Date.now().toString()` are modelled as
the `Int` timestamp itself.
-/

/-- JS `\s` whitespace class (ASCII part, which is all these claims need). -/
def jsSpace (c : Char) : Bool :=
  c = ' ' || c = '\t' || c = '\n' || c = '\r' || c = '\x0b' || c = '\x0c'

/-- JS `toLowerCase()`, restricted to the ASCII range the data uses. -/
def jsToLower (s : String) : String := ⟨s.toList.map Char.toLower⟩

/-- JS `trim()`: strip leading and trailing whitespace. -/
def jsTrim (s : String) : String :=
  ⟨((s.toList.dropWhile jsSpace).reverse.dropWhile jsSpace).reverse⟩

/-- `isValidEmail` of src/auth.js lines 418-421: the regex
`^[^\s@]+@[^\s@]+\.[^\s@]+$` holds iff the string splits at a unique `@`
into a nonempty space-free local part and a space-free domain part that
contains a `.` neither first nor last. -/
def isValidEmail (email : String) : Bool :=
  match email.toList.splitOn '@' with
  | [lpart, dpart] =>
      !lpart.isEmpty && lpart.all (fun c => !jsSpace c) &&
      dpart.all (fun c => !jsSpace c) &&
      ((dpart.drop 1).dropLast).contains '.'
  | _ => false

/-- `isValidPhone` of src/auth.js lines 428-431: strip non-digits
(`replace(/\D/g, '')`), then test `^[6-9]\d{9}$`. -/
def isValidPhone (phone : String) : Bool :=
  let ds := phone.toList.filter (fun c => c.isDigit)
  ds.length = 10 &&
    (match ds.head? with
     | some c => '6' ≤ c && c ≤ '9'
     | none => false)

/-- An address record: free-form payload plus the id / creation timestamp
that `addUserAddress` assigns (src/auth.js lines 240-241). -/
structure Address where
  payload : String
  id : Int
  createdAt : Int
deriving DecidableEq

/-- The `profile` sub-record of a user (src/auth.js lines 109-113).
`preferences` starts `{}` and is never touched, so it is omitted. -/
structure Profile where
  addresses : List Address
  orders : List String
deriving DecidableEq

def emptyProfile : Profile := ⟨[], []⟩

/-- A registered identity as stored in the `users` list
(src/auth.js lines 102-114). -/
structure User where
  id : Int
  name : String
  email : String
  phone : String
  password : String
  createdAt : Int
  profile : Profile
deriving DecidableEq

/-- The session record built by `login` (src/auth.js lines 139-144).
The four core fields are always present; the optional fields record what a
JS shallow merge `{...currentUser, ...updates}` can graft onto the session
when `updateUserProfile` merges update objects into it (lines 213-219). -/
structure Session where
  id : Int
  name : String
  email : String
  loginTime : Int
  passwordQ : Option String
  phoneQ : Option String
  createdAtQ : Option Int
  profileQ : Option Profile
deriving DecidableEq

/-- An `updates` object passed to `updateUserProfile`: a partial user
record, shallow-merged field by field.  The two shapes that occur in the
source are a full user object and `{ password }`. -/
structure Updates where
  idQ : Option Int
  nameQ : Option String
  emailQ : Option String
  phoneQ : Option String
  passwordQ : Option String
  createdAtQ : Option Int
  profileQ : Option Profile
deriving DecidableEq

/-- The full-user update object that `addUserAddress` / `addUserOrder`
pass to `updateUserProfile`. -/
def userAsUpdates (u : User) : Updates :=
  ⟨some u.id, some u.name, some u.email, some u.phone, some u.password,
   some u.createdAt, some u.profile⟩

/-- The `{ password: newPassword }` update object used by
`changePassword` and `resetPassword`. -/
def passwordUpdate (p : String) : Updates :=
  ⟨none, none, none, none, some p, none, none⟩

/-- JS shallow merge `{...user, ...updates}` on a stored identity. -/
def mergeUser (u : User) (upd : Updates) : User :=
  ⟨upd.idQ.getD u.id, upd.nameQ.getD u.name, upd.emailQ.getD u.email,
   upd.phoneQ.getD u.phone, upd.passwordQ.getD u.password,
   upd.createdAtQ.getD u.createdAt, upd.profileQ.getD u.profile⟩

def optOr (a b : Option α) : Option α :=
  match a with
  | some x => some x
  | none => b

/-- JS shallow merge `{...currentUser, ...updates}` on the session record
(src/auth.js lines 214-217).  No update object carries a `loginTime`
field, so the login timestamp always survives. -/
def mergeSession (s : Session) (upd : Updates) : Session :=
  ⟨upd.idQ.getD s.id, upd.nameQ.getD s.name, upd.emailQ.getD s.email,
   s.loginTime,
   optOr upd.passwordQ s.passwordQ, optOr upd.phoneQ s.phoneQ,
   optOr upd.createdAtQ s.createdAtQ, optOr upd.profileQ s.profileQ⟩

/-- The outstanding password-reset record stored under the
`passwordResetToken` key (src/auth.js lines 298-303). -/
structure ResetData where
  email : String
  token : String
  expires : Int
  userId : Int
deriving DecidableEq

/-- Whole-system state: the in-memory `AuthManager` fields plus one field
per localStorage key the module uses.  `users` is kept in memory and
re-persisted after every mutation, so a single field models both copies. -/
structure AuthState where
  users : List User
  currentUser : Option Session
  storedCurrentUser : Option Session
  storedRememberMe : Option String
  storedRememberedUser : Option String
  storedResetToken : Option ResetData
deriving DecidableEq

/-- A `{ success, message }` result value. -/
structure Res where
  success : Bool
  message : String
deriving DecidableEq

/-- `logout` (src/auth.js lines 163-168): clears the in-memory session and
removes the `currentUser` and `rememberMe` keys.  (`updateUI` is DOM-only.) -/
def logout (st : AuthState) : AuthState :=
  { st with currentUser := none, storedCurrentUser := none,
            storedRememberMe := none }

def maxSessionAge : Int := 24 * 60 * 60 * 1000

/-- `validateSession` (src/auth.js lines 65-78). -/
def validateSession (st : AuthState) (now : Int) : Bool × AuthState :=
  match st.currentUser with
  | some s =>
      if now - s.loginTime > maxSessionAge then (false, logout st)
      else (true, st)
  | none => (false, st)

/-- `isLoggedIn` (src/auth.js lines 174-176):
`currentUser !== null && validateSession()`. -/
def isLoggedIn (st : AuthState) (now : Int) : Bool × AuthState :=
  match st.currentUser with
  | none => (false, st)
  | some _ => validateSession st now

/-- `login` (src/auth.js lines 132-158). -/
def login (st : AuthState) (email password : String) (now : Int) :
    Res × AuthState :=
  match st.users.find? (fun u =>
      jsToLower u.email = jsToLower email && u.password = password) with
  | some u =>
      let sess : Session := ⟨u.id, u.name, u.email, now, none, none, none, none⟩
      let st1 := { st with currentUser := some sess,
                           storedCurrentUser := some sess }
      let st2 := if st.storedRememberMe = some "true"
                 then { st1 with storedRememberedUser := some email }
                 else st1
      (⟨true, "Login successful"⟩, st2)
  | none => (⟨false, "Invalid email or password"⟩, st)

/-- The registration input object. -/
structure RegData where
  name : String
  email : String
  phone : String
  password : String
  confirmPassword : String
deriving DecidableEq

/-- `validateRegistrationData` (src/auth.js lines 389-411).  The `!field`
truthiness guards are kept as explicit `= ""` disjuncts. -/
def validateRegistrationData (ud : RegData) : Option String :=
  if ud.name = "" ∨ (jsTrim ud.name).length < 2 then
    some "Name must be at least 2 characters long"
  else if ud.email = "" ∨ isValidEmail ud.email = false then
    some "Please enter a valid email address"
  else if ud.phone = "" ∨ isValidPhone ud.phone = false then
    some "Please enter a valid phone number"
  else if ud.password = "" ∨ ud.password.length < 6 then
    some "Password must be at least 6 characters long"
  else if ud.password ≠ ud.confirmPassword then
    some "Passwords do not match"
  else none

/-- `register` (src/auth.js lines 85-124). -/
def register (st : AuthState) (ud : RegData) (now : Int) : Res × AuthState :=
  match validateRegistrationData ud with
  | some msg => (⟨false, msg⟩, st)
  | none =>
    match st.users.find? (fun u => jsToLower u.email = jsToLower ud.email) with
    | some _ => (⟨false, "An account with this email already exists"⟩, st)
    | none =>
      let newUser : User :=
        ⟨now, jsTrim ud.name, jsTrim (jsToLower ud.email), jsTrim ud.phone,
         ud.password, now, emptyProfile⟩
      let st1 := { st with users := st.users ++ [newUser] }
      let st2 := (login st1 newUser.email ud.password now).2
      (⟨true, "Account created successfully"⟩, st2)

/-- Replace the first element satisfying `p` by its image under `f`; `none`
when no element matches.  This is exactly `findIndex` followed by an
assignment at that index (src/auth.js lines 202-209). -/
def updateFirst (p : User → Bool) (f : User → User) :
    List User → Option (List User)
  | [] => none
  | u :: us =>
      if p u then some (f u :: us)
      else (updateFirst p f us).map (u :: ·)

/-- `updateUserProfile` (src/auth.js lines 201-222). -/
def updateUserProfile (st : AuthState) (userId : Int) (upd : Updates) :
    Res × AuthState :=
  match updateFirst (fun u => u.id = userId) (fun u => mergeUser u upd)
      st.users with
  | none => (⟨false, "User not found"⟩, st)
  | some users2 =>
    let st1 := { st with users := users2 }
    let st2 :=
      match st.currentUser with
      | some s =>
          if s.id = userId then
            let s2 := mergeSession s upd
            { st1 with currentUser := some s2, storedCurrentUser := some s2 }
          else st1
      | none => st1
    (⟨true, "Profile updated successfully"⟩, st2)

/-- `addUserAddress` (src/auth.js lines 230-246): look the user up, append
the address (with assigned id and timestamp) to their profile, then push
the whole mutated user object through `updateUserProfile`. -/
def addUserAddress (st : AuthState) (userId : Int) (payload : String)
    (now : Int) : Res × AuthState :=
  match st.users.find? (fun u => u.id = userId) with
  | none => (⟨false, "User not found"⟩, st)
  | some u =>
      let addr : Address := ⟨payload, now, now⟩
      let u2 : User :=
        { u with profile :=
            { u.profile with addresses := u.profile.addresses ++ [addr] } }
      let st2 := (updateUserProfile st userId (userAsUpdates u2)).2
      (⟨true, "Address added successfully"⟩, st2)

/-- Result of `requestPasswordReset`, which carries the token on success. -/
structure ResetReqRes where
  success : Bool
  message : String
  token : Option String
deriving DecidableEq

/-- `requestPasswordReset` (src/auth.js lines 289-312).  The token string
is `Date.now().toString()` plus a random suffix; the suffix is passed in
as `rand`. -/
def requestPasswordReset (st : AuthState) (email : String) (now : Int)
    (rand : String) : ResetReqRes × AuthState :=
  match st.users.find? (fun u => jsToLower u.email = jsToLower email) with
  | none => (⟨false, "No account found with this email address", none⟩, st)
  | some u =>
      let resetToken := toString now ++ rand
      let rd : ResetData := ⟨email, resetToken, now + 15 * 60 * 1000, u.id⟩
      (⟨true, "Password reset instructions have been sent to your email",
        some resetToken⟩,
       { st with storedResetToken := some rd })

/-- `resetPassword` (src/auth.js lines 320-354). -/
def resetPassword (st : AuthState) (token newPassword : String) (now : Int) :
    Res × AuthState :=
  match st.storedResetToken with
  | none => (⟨false, "Invalid or expired reset token"⟩, st)
  | some rd =>
      if rd.token ≠ token then (⟨false, "Invalid reset token"⟩, st)
      else if now > rd.expires then
        (⟨false, "Reset token has expired"⟩,
         { st with storedResetToken := none })
      else if newPassword.length < 6 then
        (⟨false, "Password must be at least 6 characters long"⟩, st)
      else
        let upd := updateUserProfile st rd.userId (passwordUpdate newPassword)
        if upd.1.success then
          (⟨true, "Password reset successfully"⟩,
           { upd.2 with storedResetToken := none })
        else (⟨false, "Error resetting password"⟩, upd.2)

/-- Result of `validateResetToken`: `{ valid, message }` or
`{ valid: true, email }`. -/
structure VTokRes where
  valid : Bool
  message : String
  email : Option String
deriving DecidableEq

/-- `validateResetToken` (src/auth.js lines 361-382). -/
def validateResetToken (st : AuthState) (token : String) (now : Int) :
    VTokRes × AuthState :=
  match st.storedResetToken with
  | none => (⟨false, "Invalid or expired reset token", none⟩, st)
  | some rd =>
      if rd.token ≠ token then (⟨false, "Invalid reset token", none⟩, st)
      else if now > rd.expires then
        (⟨false, "Reset token has expired", none⟩,
         { st with storedResetToken := none })
      else (⟨true, "", some rd.email⟩, st)

/-- One cart line (quantity-aware variant, src/unnamed/part_000 line 46 and
src/cart.js line 45). -/
structure CartLine where
  name : String
  price : Int
  image : String
  quantity : Nat
deriving DecidableEq

/-- `addToCart` (src/unnamed/part_000 lines 35-53, src/cart.js lines
34-52): `findIndex` on the name; increment that line's quantity if found,
else push a fresh line with quantity 1.  (The surrounding load/save of
localStorage and the badge refresh are independent of this list logic.) -/
def addToCart (name : String) (price : Int) (image : String) :
    List CartLine → List CartLine
  | [] => [⟨name, price, image, 1⟩]
  | item :: rest =>
      if item.name = name then
        { item with quantity := item.quantity + 1 } :: rest
      else item :: addToCart name price image rest

/-! ## Helper lemmas -/

theorem updateFirst_of_find? {p : User → Bool} {f : User → User} :
    ∀ {l : List User} {u : User}, l.find? p = some u →
    ∃ l1 l2, l = l1 ++ u :: l2 ∧ (∀ x ∈ l1, p x = false) ∧
      updateFirst p f l = some (l1 ++ f u :: l2)
  | [], u, h => by simp [List.find?] at h
  | v :: vs, u, h => by
      by_cases hv : p v
      · rw [List.find?_cons_of_pos _ hv] at h
        obtain rfl : v = u := by injection h
        exact ⟨[], vs, rfl, by simp, by simp [updateFirst, hv]⟩
      · rw [List.find?_cons_of_neg _ hv] at h
        obtain ⟨l1, l2, hsplit, hall, hupd⟩ := updateFirst_of_find? (f := f) h
        refine ⟨v :: l1, l2, by simp [hsplit], ?_, ?_⟩
        · intro x hx
          rcases List.mem_cons.mp hx with rfl | hx
          · simpa using hv
          · exact hall x hx
        · simp [updateFirst, hv, hupd]

theorem updateFirst_of_pairwise {f : User → User} :
    ∀ {l1 : List User} {u : User} {l2 : List User},
    (l1 ++ u :: l2).Pairwise (fun a b => a.id ≠ b.id) →
    updateFirst (fun v => v.id = u.id) f (l1 ++ u :: l2) =
      some (l1 ++ f u :: l2)
  | [], u, l2, _ => by simp [updateFirst]
  | v :: l1, u, l2, hp => by
      have hv : v.id ≠ u.id := (List.pairwise_cons.mp hp).1 u (by simp)
      have ih := updateFirst_of_pairwise (f := f) (List.pairwise_cons.mp hp).2
      simp [updateFirst, hv, ih]

theorem updateUserProfile_frame (st : AuthState) (userId : Int) (upd : Updates)
    {users2 : List User}
    (h : updateFirst (fun v => v.id = userId) (fun v => mergeUser v upd)
        st.users = some users2) :
    (updateUserProfile st userId upd).1 = ⟨true, "Profile updated successfully"⟩ ∧
    ((updateUserProfile st userId upd).2).users = users2 ∧
    ((updateUserProfile st userId upd).2).storedResetToken = st.storedResetToken ∧
    ((updateUserProfile st userId upd).2).storedRememberMe = st.storedRememberMe ∧
    ((updateUserProfile st userId upd).2).storedRememberedUser =
      st.storedRememberedUser := by
  rw [updateUserProfile]
  rw [h]
  cases hc : st.currentUser with
  | none => simp
  | some s =>
      by_cases hs : s.id = userId <;> simp [hs]

/-! ## Claims -/

/-- C3: `validateSession` returns false when no session exists; when the
session is older than 24 hours it logs out (clearing the in-memory session
and the persisted session key) and returns false; otherwise it returns
true.  Consequently `isLoggedIn` is false past 24 hours, with the
persisted session removed as a side effect. -/
theorem session_expiry_spec (st : AuthState) (now : Int) :
    (st.currentUser = none → validateSession st now = (false, st)) ∧
    (∀ s, st.currentUser = some s → now - s.loginTime > maxSessionAge →
        validateSession st now = (false, logout st) ∧
        (logout st).currentUser = none ∧ (logout st).storedCurrentUser = none) ∧
    (∀ s, st.currentUser = some s → ¬ now - s.loginTime > maxSessionAge →
        validateSession st now = (true, st)) ∧
    (∀ s, st.currentUser = some s → now - s.loginTime > maxSessionAge →
        (isLoggedIn st now).1 = false ∧
        ((isLoggedIn st now).2).currentUser = none ∧
        ((isLoggedIn st now).2).storedCurrentUser = none) := by
  refine ⟨fun h => ?_, fun s hs hgt => ?_, fun s hs hle => ?_, fun s hs hgt => ?_⟩
  · simp [validateSession, h]
  · simp [validateSession, hs, hgt, logout]
  · simp [validateSession, hs, hle]
  · simp [isLoggedIn, validateSession, hs, hgt, logout]

def uW : User := ⟨1, "Alice", "a@b.co", "9876543210", "secret1", 1, emptyProfile⟩
def sessW : Session := ⟨1, "Alice", "a@b.co", 0, none, none, none, none⟩
def stW : AuthState :=
  ⟨[uW], some sessW, some sessW, some "true", some "a@b.co",
   some ⟨"a@b.co", "tok", 5, 1⟩⟩

theorem session_expiry_spec_witness :
    validateSession stW 86400001 = (false, logout stW) ∧
    (isLoggedIn stW 86400001).1 = false ∧
    ((isLoggedIn stW 86400001).2).storedCurrentUser = none :=
  ⟨((session_expiry_spec stW 86400001).2.1 sessW rfl (by decide)).1,
   ((session_expiry_spec stW 86400001).2.2.2 sessW rfl (by decide)).1,
   ((session_expiry_spec stW 86400001).2.2.2 sessW rfl (by decide)).2.2⟩

/-- C7: with a stored reset token, `validateResetToken` on the stored
token string fails and deletes the record when the expiry is past, and
returns the associated email with no state change when unexpired. -/
theorem reset_token_expiry_check (st : AuthState) (rd : ResetData) (now : Int)
    (hrd : st.storedResetToken = some rd) :
    (now > rd.expires →
       (validateResetToken st rd.token now).1.valid = false ∧
       validateResetToken st rd.token now =
         (⟨false, "Reset token has expired", none⟩,
          { st with storedResetToken := none })) ∧
    (¬ now > rd.expires →
       validateResetToken st rd.token now = (⟨true, "", some rd.email⟩, st)) := by
  constructor
  · intro hexp
    simp [validateResetToken, hrd, hexp]
  · intro hexp
    simp [validateResetToken, hrd, hexp]

theorem reset_token_expiry_check_witness :
    validateResetToken stW "tok" 10 =
      (⟨false, "Reset token has expired", none⟩,
       { stW with storedResetToken := none }) ∧
    validateResetToken stW "tok" 5 = (⟨true, "", some "a@b.co"⟩, stW) :=
  ⟨((reset_token_expiry_check stW ⟨"a@b.co", "tok", 5, 1⟩ 10 rfl).1
      (by decide)).2,
   (reset_token_expiry_check stW ⟨"a@b.co", "tok", 5, 1⟩ 5 rfl).2 (by decide)⟩

/-- C9: `resetPassword` with a matching unexpired token but a new secret
shorter than 6 characters fails with the validation message and leaves the
whole state (token record, directory, every secret) unchanged. -/
theorem reset_short_secret_no_change (st : AuthState) (rd : ResetData)
    (newSecret : String) (now : Int)
    (hrd : st.storedResetToken = some rd)
    (hexp : ¬ now > rd.expires)
    (hlen : newSecret.length < 6) :
    resetPassword st rd.token newSecret now =
      (⟨false, "Password must be at least 6 characters long"⟩, st) := by
  simp [resetPassword, hrd, hexp, hlen]

theorem reset_short_secret_no_change_witness :
    resetPassword stW "tok" "abc" 5 =
      (⟨false, "Password must be at least 6 characters long"⟩, stW) :=
  reset_short_secret_no_change stW ⟨"a@b.co", "tok", 5, 1⟩ "abc" 5 rfl
    (by decide) (by decide)

/-- C10: `logout` removes the persisted session key and the remember-me
key but never touches the remembered-email key; in particular an email
persisted there by `login` survives `logout`. -/
theorem logout_keeps_remembered_email (st : AuthState) :
    (logout st).storedRememberedUser = st.storedRememberedUser ∧
    (logout st).storedCurrentUser = none ∧
    (logout st).storedRememberMe = none ∧
    (∀ email password now,
       st.storedRememberMe = some "true" →
       (login st email password now).1.success = true →
       ((login st email password now).2).storedRememberedUser = some email ∧
       (logout ((login st email password now).2)).storedRememberedUser =
         some email) := by
  refine ⟨rfl, rfl, rfl, fun email password now hrm hsucc => ?_⟩
  cases h : st.users.find? (fun u =>
      jsToLower u.email = jsToLower email && u.password = password) with
  | none => simp [login, h] at hsucc
  | some u => simp [login, h, hrm, logout]

theorem logout_keeps_remembered_email_witness :
    ((login stW "a@b.co" "secret1" 7).2).storedRememberedUser =
      some "a@b.co" ∧
    (logout ((login stW "a@b.co" "secret1" 7).2)).storedRememberedUser =
      some "a@b.co" :=
  (logout_keeps_remembered_email stW).2.2.2 "a@b.co" "secret1" 7 rfl (by decide)

theorem mem_addToCart_name (name : String) (price : Int) (image : String) :
    ∀ {cart : List CartLine} {b : CartLine},
      b ∈ addToCart name price image cart →
      b.name = name ∨ ∃ a ∈ cart, b.name = a.name
  | [], b, hb => by
      simp [addToCart] at hb
      simp [hb]
  | i :: rest, b, hb => by
      by_cases h : i.name = name
      · rw [addToCart, if_pos h] at hb
        rcases List.mem_cons.mp hb with rfl | hb
        · exact Or.inr ⟨i, by simp, rfl⟩
        · exact Or.inr ⟨b, by simp [hb], rfl⟩
      · rw [addToCart, if_neg h] at hb
        rcases List.mem_cons.mp hb with rfl | hb
        · exact Or.inr ⟨b, by simp, rfl⟩
        · rcases mem_addToCart_name name price image hb with hn | ⟨a, ha, hn⟩
          · exact Or.inl hn
          · exact Or.inr ⟨a, by simp [ha], hn⟩

theorem addToCart_pairwise (name : String) (price : Int) (image : String) :
    ∀ {cart : List CartLine},
      cart.Pairwise (fun a b => a.name ≠ b.name) →
      (addToCart name price image cart).Pairwise (fun a b => a.name ≠ b.name)
  | [], _ => by simp [addToCart]
  | i :: rest, hp => by
      obtain ⟨hi, hrest⟩ := List.pairwise_cons.mp hp
      by_cases h : i.name = name
      · rw [addToCart, if_pos h]
        exact List.pairwise_cons.mpr ⟨fun b hb => hi b hb, hrest⟩
      · rw [addToCart, if_neg h]
        refine List.pairwise_cons.mpr
          ⟨fun b hb => ?_, addToCart_pairwise name price image hrest⟩
        rcases mem_addToCart_name name price image hb with hn | ⟨a, ha, hn⟩
        · rw [hn]; exact h
        · rw [hn]; exact hi a ha

theorem addToCart_append_of_not_mem (name : String) (price : Int)
    (image : String) :
    ∀ {cart : List CartLine}, (∀ i ∈ cart, i.name ≠ name) →
      addToCart name price image cart = cart ++ [⟨name, price, image, 1⟩]
  | [], _ => rfl
  | i :: rest, h => by
      rw [addToCart, if_neg (h i (by simp))]
      rw [addToCart_append_of_not_mem name price image
        (fun x hx => h x (by simp [hx]))]
      simp

theorem addToCart_increment (name : String) (price : Int) (image : String) :
    ∀ {l1 : List CartLine} {x : CartLine} {l2 : List CartLine},
      (l1 ++ x :: l2).Pairwise (fun a b => a.name ≠ b.name) →
      x.name = name →
      addToCart name price image (l1 ++ x :: l2) =
        l1 ++ { x with quantity := x.quantity + 1 } :: l2
  | [], x, l2, _, hx => by simp [addToCart, hx]
  | v :: l1, x, l2, hp, hx => by
      have hv : v.name ≠ name := by
        rw [← hx]
        exact (List.pairwise_cons.mp hp).1 x (by simp)
      rw [List.cons_append, addToCart, if_neg hv,
        addToCart_increment name price image (List.pairwise_cons.mp hp).2 hx,
        List.cons_append]

/-- C5: `addToCart` preserves the unique-product-name invariant: an
existing line has its quantity incremented in place with nothing appended,
a missing product is appended with quantity 1, and two consecutive adds of
the same product starting from an empty cart yield one line of quantity 2. -/
theorem addToCart_spec (cart : List CartLine) (name : String) (price : Int)
    (image : String)
    (hinv : cart.Pairwise (fun a b => a.name ≠ b.name)) :
    (addToCart name price image cart).Pairwise (fun a b => a.name ≠ b.name) ∧
    ((∀ i ∈ cart, i.name ≠ name) →
       addToCart name price image cart = cart ++ [⟨name, price, image, 1⟩]) ∧
    (∀ x l1 l2, cart = l1 ++ x :: l2 → x.name = name →
       addToCart name price image cart =
         l1 ++ { x with quantity := x.quantity + 1 } :: l2) ∧
    addToCart name price image (addToCart name price image []) =
      [⟨name, price, image, 2⟩] := by
  refine ⟨addToCart_pairwise name price image hinv,
    addToCart_append_of_not_mem name price image, ?_, ?_⟩
  · intro x l1 l2 hsplit hx
    subst hsplit
    exact addToCart_increment name price image hinv hx
  · simp [addToCart]

theorem addToCart_spec_witness :
    addToCart "X" 10 "img" (addToCart "X" 10 "img" []) =
      [⟨"X", 10, "img", 2⟩] :=
  (addToCart_spec [] "X" 10 "img" List.Pairwise.nil).2.2.2

/-- C4: `login` succeeds iff some identity matches the email
case-insensitively and the secret exactly; on a match it installs and
persists the session `{id, name, email, loginTime = now}` and
`isLoggedIn` is true immediately after; on no match it returns the single
non-specific invalid-credentials result with no state change. -/
theorem login_spec (st : AuthState) (email password : String) (now : Int) :
    ((login st email password now).1.success = true ↔
       ∃ u ∈ st.users, jsToLower u.email = jsToLower email ∧
         u.password = password) ∧
    (∀ u, st.users.find? (fun v =>
          jsToLower v.email = jsToLower email && v.password = password) =
        some u →
       (login st email password now).1 = ⟨true, "Login successful"⟩ ∧
       ((login st email password now).2).currentUser =
         some ⟨u.id, u.name, u.email, now, none, none, none, none⟩ ∧
       ((login st email password now).2).storedCurrentUser =
         some ⟨u.id, u.name, u.email, now, none, none, none, none⟩ ∧
       isLoggedIn ((login st email password now).2) now =
         (true, (login st email password now).2)) ∧
    (st.users.find? (fun v =>
        jsToLower v.email = jsToLower email && v.password = password) = none →
       login st email password now =
         (⟨false, "Invalid email or password"⟩, st)) := by
  refine ⟨?_, ?_, ?_⟩
  · constructor
    · intro hsucc
      cases h : st.users.find? (fun v =>
          jsToLower v.email = jsToLower email && v.password = password) with
      | none => simp [login, h] at hsucc
      | some u =>
          have hm := List.mem_of_find?_eq_some h
          have hp := List.find?_some h
          simp only [Bool.and_eq_true, decide_eq_true_eq] at hp
          exact ⟨u, hm, hp⟩
    · rintro ⟨u, hm, he, hpw⟩
      cases h : st.users.find? (fun v =>
          jsToLower v.email = jsToLower email && v.password = password) with
      | none =>
          rw [List.find?_eq_none] at h
          have := h u hm
          simp [he, hpw] at this
      | some v => simp [login, h]
  · intro u h
    by_cases hr : st.storedRememberMe = some "true" <;>
      simp [login, h, hr, isLoggedIn, validateSession, maxSessionAge]
  · intro h
    simp [login, h]

theorem login_spec_witness :
    (login stW "A@B.CO" "secret1" 50).1 = ⟨true, "Login successful"⟩ ∧
    ((login stW "A@B.CO" "secret1" 50).2).currentUser =
      some ⟨1, "Alice", "a@b.co", 50, none, none, none, none⟩ ∧
    login stW "bad@x.co" "secret1" 50 =
      (⟨false, "Invalid email or password"⟩, stW) :=
  ⟨((login_spec stW "A@B.CO" "secret1" 50).2.1 uW (by decide)).1,
   ((login_spec stW "A@B.CO" "secret1" 50).2.1 uW (by decide)).2.1,
   (login_spec stW "bad@x.co" "secret1" 50).2.2 (by decide)⟩

/-- C6: registration validation checks name, email, phone, secret length,
and secret-confirmation equality in that fixed order; the first failing
rule's message is returned with no state change, and when every rule
passes the validation succeeds. -/
theorem registration_validation_order (st : AuthState) (ud : RegData)
    (now : Int) :
    ((jsTrim ud.name).length < 2 →
       register st ud now =
         (⟨false, "Name must be at least 2 characters long"⟩, st)) ∧
    (2 ≤ (jsTrim ud.name).length → isValidEmail ud.email = false →
       register st ud now =
         (⟨false, "Please enter a valid email address"⟩, st)) ∧
    (2 ≤ (jsTrim ud.name).length → isValidEmail ud.email = true →
       isValidPhone ud.phone = false →
       register st ud now =
         (⟨false, "Please enter a valid phone number"⟩, st)) ∧
    (2 ≤ (jsTrim ud.name).length → isValidEmail ud.email = true →
       isValidPhone ud.phone = true → ud.password.length < 6 →
       register st ud now =
         (⟨false, "Password must be at least 6 characters long"⟩, st)) ∧
    (2 ≤ (jsTrim ud.name).length → isValidEmail ud.email = true →
       isValidPhone ud.phone = true → 6 ≤ ud.password.length →
       ud.password ≠ ud.confirmPassword →
       register st ud now = (⟨false, "Passwords do not match"⟩, st)) ∧
    (2 ≤ (jsTrim ud.name).length → isValidEmail ud.email = true →
       isValidPhone ud.phone = true → 6 ≤ ud.password.length →
       ud.password = ud.confirmPassword →
       validateRegistrationData ud = none) := by
  have hname : 2 ≤ (jsTrim ud.name).length →
      ¬ (ud.name = "" ∨ (jsTrim ud.name).length < 2) := by
    intro hlen
    rintro (h | h)
    · rw [h] at hlen
      exact absurd hlen (by decide)
    · omega
  have hemail : isValidEmail ud.email = true →
      ¬ (ud.email = "" ∨ isValidEmail ud.email = false) := by
    intro htrue
    rintro (h | h)
    · rw [h] at htrue
      exact absurd htrue (by decide)
    · simp [h] at htrue
  have hphone : isValidPhone ud.phone = true →
      ¬ (ud.phone = "" ∨ isValidPhone ud.phone = false) := by
    intro htrue
    rintro (h | h)
    · rw [h] at htrue
      exact absurd htrue (by decide)
    · simp [h] at htrue
  have hpass : 6 ≤ ud.password.length →
      ¬ (ud.password = "" ∨ ud.password.length < 6) := by
    intro hlen
    rintro (h | h)
    · rw [h] at hlen
      exact absurd hlen (by decide)
    · omega
  refine ⟨fun h1 => ?_, fun h1 h2 => ?_, fun h1 h2 h3 => ?_,
    fun h1 h2 h3 h4 => ?_, fun h1 h2 h3 h4 h5 => ?_, fun h1 h2 h3 h4 h5 => ?_⟩
  · have hv : validateRegistrationData ud =
        some "Name must be at least 2 characters long" := by
      unfold validateRegistrationData
      rw [if_pos (Or.inr h1)]
    simp [register, hv]
  · have hv : validateRegistrationData ud =
        some "Please enter a valid email address" := by
      unfold validateRegistrationData
      rw [if_neg (hname h1), if_pos (Or.inr h2)]
    simp [register, hv]
  · have hv : validateRegistrationData ud =
        some "Please enter a valid phone number" := by
      unfold validateRegistrationData
      rw [if_neg (hname h1), if_neg (hemail h2), if_pos (Or.inr h3)]
    simp [register, hv]
  · have hv : validateRegistrationData ud =
        some "Password must be at least 6 characters long" := by
      unfold validateRegistrationData
      rw [if_neg (hname h1), if_neg (hemail h2), if_neg (hphone h3),
        if_pos (Or.inr h4)]
    simp [register, hv]
  · have hv : validateRegistrationData ud = some "Passwords do not match" := by
      unfold validateRegistrationData
      rw [if_neg (hname h1), if_neg (hemail h2), if_neg (hphone h3),
        if_neg (hpass h4), if_pos h5]
    simp [register, hv]
  · unfold validateRegistrationData
    rw [if_neg (hname h1), if_neg (hemail h2), if_neg (hphone h3),
      if_neg (hpass h4), if_neg (fun hne => hne h5)]

theorem registration_validation_order_witness :
    register stW ⟨"Bob", "b@c.co", "12345", "secret2", "secret2"⟩ 5 =
      (⟨false, "Please enter a valid phone number"⟩, stW) :=
  (registration_validation_order stW
    ⟨"Bob", "b@c.co", "12345", "secret2", "secret2"⟩ 5).2.2.1
    (by decide) (by decide) (by decide)

/-- C1 (counterexample): a registration input whose email already exists
case-insensitively but whose name fails validation returns the validation
message, not the duplicate-email message, so the claim as universally
stated is false. -/
theorem register_dup_cex :
    (∃ u ∈ stW.users, jsToLower u.email = jsToLower "A@B.co") ∧
    register stW ⟨"", "A@B.co", "9876543210", "secret1", "secret1"⟩ 100 =
      (⟨false, "Name must be at least 2 characters long"⟩, stW) ∧
    ("Name must be at least 2 characters long" ≠
      "An account with this email already exists") := by
  refine ⟨⟨uW, by decide, by decide⟩, by decide, by decide⟩

/-- C1 (amended): for every registration input that passes field
validation and whose email already belongs to a registered identity under
case-insensitive comparison, `register` returns the non-success
duplicate-email result and leaves the state (in particular the directory)
unchanged. -/
theorem register_dup_after_validation (st : AuthState) (ud : RegData)
    (now : Int)
    (hval : validateRegistrationData ud = none)
    (hdup : ∃ u ∈ st.users, jsToLower u.email = jsToLower ud.email) :
    register st ud now =
      (⟨false, "An account with this email already exists"⟩, st) := by
  cases h : st.users.find? (fun u => jsToLower u.email = jsToLower ud.email) with
  | none =>
      rw [List.find?_eq_none] at h
      obtain ⟨u, hm, he⟩ := hdup
      have := h u hm
      simp [he] at this
  | some v => simp [register, hval, h]

theorem register_dup_after_validation_witness :
    register stW ⟨"Bob", "A@B.co", "9876543210", "secret2", "secret2"⟩ 100 =
      (⟨false, "An account with this email already exists"⟩, stW) :=
  register_dup_after_validation stW
    ⟨"Bob", "A@B.co", "9876543210", "secret2", "secret2"⟩ 100
    (by decide) ⟨uW, by decide, by decide⟩

/-- C8: when the looked-up identity is the current session's identity, a
successful `addUserAddress` shallow-merges the full identity record into
the session and persists it under the session key, so the persisted
session afterwards carries the identity's plaintext secret, phone,
creation timestamp and full profile in addition to the session fields. -/
theorem addAddress_merges_user_into_session (st : AuthState) (u : User)
    (s : Session) (payload : String) (now : Int)
    (hfind : st.users.find? (fun v => v.id = u.id) = some u)
    (hsess : st.currentUser = some s)
    (hid : s.id = u.id) :
    (addUserAddress st u.id payload now).1.success = true ∧
    ((addUserAddress st u.id payload now).2).currentUser =
      some ⟨u.id, u.name, u.email, s.loginTime, some u.password, some u.phone,
            some u.createdAt,
            some { u.profile with
                     addresses := u.profile.addresses ++ [⟨payload, now, now⟩] }⟩ ∧
    ((addUserAddress st u.id payload now).2).storedCurrentUser =
      some ⟨u.id, u.name, u.email, s.loginTime, some u.password, some u.phone,
            some u.createdAt,
            some { u.profile with
                     addresses := u.profile.addresses ++ [⟨payload, now, now⟩] }⟩ := by
  obtain ⟨l1, l2, hsplit, hall, hupd⟩ :=
    updateFirst_of_find? (f := fun v => mergeUser v (userAsUpdates
      { u with profile := { u.profile with
          addresses := u.profile.addresses ++ [⟨payload, now, now⟩] } })) hfind
  simp only [addUserAddress, hfind]
  simp only [updateUserProfile, hupd, hsess]
  rw [if_pos hid]
  simp [mergeSession, userAsUpdates, optOr]

theorem addAddress_merges_user_into_session_witness :
    ((addUserAddress stW 1 "addr" 99).2).storedCurrentUser =
      some ⟨1, "Alice", "a@b.co", 0, some "secret1", some "9876543210", some 1,
            some ⟨[⟨"addr", 99, 99⟩], []⟩⟩ :=
  (addAddress_merges_user_into_session stW uW sessW "addr" 99
    (by decide) rfl rfl).2.2

/-- C2: for an identity found for a registered email (identities assumed
to carry distinct ids), `requestPasswordReset` followed before expiry by
`resetPassword` with the returned token and a secret of length ≥ 6
changes exactly that identity's secret to the new one and deletes the
token record; any later `resetPassword` with the same token fails with
the token error and changes nothing. -/
theorem reset_flow_single_use (st : AuthState) (email : String) (u : User)
    (now now2 : Int) (rand newSecret : String)
    (hids : st.users.Pairwise (fun a b => a.id ≠ b.id))
    (hfind : st.users.find? (fun v => jsToLower v.email = jsToLower email) =
      some u)
    (hlen : 6 ≤ newSecret.length)
    (hexp : now2 ≤ now + 15 * 60 * 1000) :
    (requestPasswordReset st email now rand).1.token =
      some (toString now ++ rand) ∧
    (resetPassword ((requestPasswordReset st email now rand).2)
        (toString now ++ rand) newSecret now2).1 =
      ⟨true, "Password reset successfully"⟩ ∧
    (∃ l1 l2, st.users = l1 ++ u :: l2 ∧
       ((resetPassword ((requestPasswordReset st email now rand).2)
           (toString now ++ rand) newSecret now2).2).users =
         l1 ++ { u with password := newSecret } :: l2) ∧
    ((resetPassword ((requestPasswordReset st email now rand).2)
        (toString now ++ rand) newSecret now2).2).storedResetToken = none ∧
    (∀ s3 now3,
       resetPassword
           ((resetPassword ((requestPasswordReset st email now rand).2)
              (toString now ++ rand) newSecret now2).2)
           (toString now ++ rand) s3 now3 =
         (⟨false, "Invalid or expired reset token"⟩,
          (resetPassword ((requestPasswordReset st email now rand).2)
            (toString now ++ rand) newSecret now2).2)) := by
  have hexp9 : now2 ≤ now + 900000 := hexp
  obtain ⟨l1, l2, hsplit⟩ := List.append_of_mem (List.mem_of_find?_eq_some hfind)
  have hupd : updateFirst (fun v => v.id = u.id)
      (fun v => mergeUser v (passwordUpdate newSecret)) st.users =
      some (l1 ++ { u with password := newSecret } :: l2) := by
    rw [hsplit]
    exact updateFirst_of_pairwise (hsplit ▸ hids)
  have hreq1 : (requestPasswordReset st email now rand).1 =
      ⟨true, "Password reset instructions have been sent to your email",
       some (toString now ++ rand)⟩ := by
    simp [requestPasswordReset, hfind]
  have hreq2 : (requestPasswordReset st email now rand).2 =
      { st with storedResetToken :=
          (some ⟨email, toString now ++ rand, now + 900000, u.id⟩) } := by
    simp [requestPasswordReset, hfind]
  have hfr := updateUserProfile_frame
      { st with storedResetToken :=
          (some ⟨email, toString now ++ rand, now + 900000, u.id⟩) }
      u.id (passwordUpdate newSecret) hupd
  have hreset : resetPassword
      ({ st with storedResetToken :=
          (some ⟨email, toString now ++ rand, now + 900000, u.id⟩) })
      (toString now ++ rand) newSecret now2 =
      (⟨true, "Password reset successfully"⟩,
       { (updateUserProfile
           { st with storedResetToken :=
              (some ⟨email, toString now ++ rand, now + 900000, u.id⟩) }
           u.id (passwordUpdate newSecret)).2 with
         storedResetToken := none }) := by
    simp [resetPassword, not_lt.mpr hexp9, Nat.not_lt.mpr hlen, hfr.1]
  refine ⟨?_, ?_, ⟨l1, l2, hsplit, ?_⟩, ?_, ?_⟩
  · rw [hreq1]
  · rw [hreq2, hreset]
  · rw [hreq2, hreset]
    simpa using hfr.2.1
  · rw [hreq2, hreset]
  · intro s3 now3
    rw [hreq2, hreset]
    simp [resetPassword]

theorem reset_flow_single_use_witness :
    (resetPassword ((requestPasswordReset stW "a@b.co" 10 "xyz").2) "10xyz"
        "newpass1" 20).1 = ⟨true, "Password reset successfully"⟩ ∧
    ((resetPassword ((requestPasswordReset stW "a@b.co" 10 "xyz").2) "10xyz"
        "newpass1" 20).2).storedResetToken = none ∧
    resetPassword
        ((resetPassword ((requestPasswordReset stW "a@b.co" 10 "xyz").2)
           "10xyz" "newpass1" 20).2) "10xyz" "later1" 30 =
      (⟨false, "Invalid or expired reset token"⟩,
       (resetPassword ((requestPasswordReset stW "a@b.co" 10 "xyz").2) "10xyz"
         "newpass1" 20).2) := by
  have h := reset_flow_single_use stW "a@b.co" uW 10 20 "xyz" "newpass1"
    (by decide) (by decide) (by decide) (by decide)
  exact ⟨h.2.1, h.2.2.2.1, h.2.2.2.2 "later1" 30⟩
